import Mathlib

/-!
Verification of the ARMS trend-following setup detector
(`src/core/setup_detector.py`) against its natural-language specification.

The detector is embedded shallowly: prices and indicator values are modelled
as rationals, timestamps as integers ordered like the source's datetimes, a
NaN volatility value as `Option.none`, and the mutable instance state of the
`SetupDetector` object is threaded explicitly through each method.
-/

set_option maxHeartbeats 1000000

/-- Trade / cross direction (the strings 'LONG' and 'SHORT' in the source). -/
inductive Direction
  | LONG
  | SHORT
deriving DecidableEq, Repr

/-- Exit type tag of a simulated trade ('SL', 'BE', 'CROSS', 'EOD'). -/
inductive ExitType
  | SL
  | BE
  | CROSS
  | EOD
deriving DecidableEq, Repr

/-- Outcome label of a simulated trade ('WIN', 'LOSS', 'BE'). -/
inductive Outcome
  | WIN
  | LOSS
  | BE
deriving DecidableEq, Repr

/-- One row of the indicator-enriched candle dataframe.  Only the columns the
detector reads are modelled; `atr` is `none` where the source holds NaN. -/
structure Candle where
  datetime : ℤ
  high : ℚ
  low : ℚ
  close : ℚ
  ema20 : ℚ
  ema50 : ℚ
  atr : Option ℚ
  plus_di : ℚ
  minus_di : ℚ
deriving DecidableEq, Repr

/-- The configuration fields set in `SetupDetector.__init__` (immutable during
a run).  `pip_factor` and `decimals` come from `config.get_pip_factor` /
`config.get_symbol_info`. -/
structure SetupDetector where
  min_separation_pips : ℚ
  stop_loss_pips : ℚ
  use_di_h4_filter : Bool
  di_h4_min_diff : ℚ
  use_be_atr : Bool
  be_atr_multiplier : ℚ
  pip_factor : ℚ
  decimals : ℕ
deriving DecidableEq, Repr

/-- The dict returned by `simulate_trade`.  The SL/BE/EOD dicts carry no
'exit_cross_direction' key, modelled here as `none`. -/
structure TradeResult where
  outcome : Outcome
  exit_date : ℤ
  exit_price : ℚ
  exit_idx : ℕ
  exit_type : ExitType
  exit_cross_direction : Option Direction
  pips : ℚ
  candles_held : ℕ
  exit_reason : String
deriving DecidableEq, Repr

/-- The dict appended to `self.setups` by `_process_entry`. -/
structure Setup where
  setup_id : ℕ
  entry_date : ℤ
  direction : Direction
  entry_price : ℚ
  sl_price : ℚ
  exit_date : ℤ
  exit_price : ℚ
  exit_reason : String
  outcome : Outcome
  pips : ℚ
  candles_held : ℕ
deriving DecidableEq, Repr

/-- The mutable instance state of a `SetupDetector` object (`self.setups`,
`self.filtered_by_di_h4`, `self.be_activated`), threaded explicitly. -/
structure DetectorState where
  setups : List Setup
  filtered_by_di_h4 : ℕ
  be_activated : ℕ
deriving DecidableEq, Repr

/-- Python `round(x, n)`: rounding to `n` decimal places, applied by the source
only at the boundary of producing a trade record. -/
def roundTo (n : ℕ) (q : ℚ) : ℚ :=
  ((round (q * (10 : ℚ) ^ n) : ℤ) : ℚ) / (10 : ℚ) ^ n

/-- `SetupDetector.detect_ema_cross(df, idx)`. -/
def detect_ema_cross (df : List Candle) (idx : ℕ) : Option Direction :=
  if idx = 0 then none
  else
    match df[idx - 1]?, df[idx]? with
    | some prev_candle, some curr_candle =>
      if prev_candle.ema20 ≤ prev_candle.ema50 ∧ curr_candle.ema50 < curr_candle.ema20 then
        some Direction.LONG
      else if prev_candle.ema50 ≤ prev_candle.ema20 ∧ curr_candle.ema20 < curr_candle.ema50 then
        some Direction.SHORT
      else none
    | _, _ => none

/-- `SetupDetector.check_separation(candle)`. -/
def check_separation (self : SetupDetector) (candle : Candle) : Bool :=
  decide (self.min_separation_pips ≤ |candle.ema20 - candle.ema50| * self.pip_factor)

/-- `SetupDetector.check_ema_touch(candle)`. -/
def check_ema_touch (candle : Candle) : Bool :=
  decide (candle.low ≤ candle.ema20 ∧ candle.ema20 ≤ candle.high)

/-- `df_htf[df_htf['datetime'] <= entry_dt].iloc[-1]` guarded by `mask.any()`:
the last listed higher-timeframe candle whose timestamp is at or before `t`. -/
def lastAtOrBefore (df_htf : List Candle) (t : ℤ) : Option Candle :=
  (df_htf.filter (fun c => decide (c.datetime ≤ t))).getLast?

/-- `SetupDetector.check_di_h4_filter(df_htf, entry_datetime, direction)`. -/
def check_di_h4_filter (self : SetupDetector) (df_htf : Option (List Candle))
    (entry_datetime : ℤ) (direction : Direction) : Bool :=
  match df_htf with
  | none => true
  | some htf =>
    if !self.use_di_h4_filter then true
    else
      match lastAtOrBefore htf entry_datetime with
      | none => true
      | some h4_candle =>
        match direction with
        | Direction.LONG => decide (self.di_h4_min_diff ≤ h4_candle.plus_di - h4_candle.minus_di)
        | Direction.SHORT => decide (self.di_h4_min_diff ≤ h4_candle.minus_di - h4_candle.plus_di)

/-- `sl_distance = self.stop_loss_pips / self.pip_factor`. -/
def sl_distance (self : SetupDetector) : ℚ :=
  self.stop_loss_pips / self.pip_factor

/-- The stop-loss price fixed at the top of `simulate_trade`. -/
def sl_price_of (self : SetupDetector) (direction : Direction) (entry_price : ℚ) : ℚ :=
  match direction with
  | Direction.LONG => entry_price - sl_distance self
  | Direction.SHORT => entry_price + sl_distance self

/-- The per-candle stop-loss test of `simulate_trade`
(long: `low <= sl_price`, short: `high >= sl_price`). -/
def sl_hit (direction : Direction) (sl_price : ℚ) (candle : Candle) : Bool :=
  match direction with
  | Direction.LONG => decide (candle.low ≤ sl_price)
  | Direction.SHORT => decide (sl_price ≤ candle.high)

/-- The dict returned by `simulate_trade` on a stop-loss hit. -/
def sl_result (self : SetupDetector) (direction : Direction) (entry_price : ℚ)
    (entry_idx i : ℕ) (candle : Candle) : TradeResult :=
  let sl_price := sl_price_of self direction entry_price
  let pips := match direction with
    | Direction.LONG => (sl_price - entry_price) * self.pip_factor
    | Direction.SHORT => (entry_price - sl_price) * self.pip_factor
  { outcome := Outcome.LOSS
    exit_date := candle.datetime
    exit_price := sl_price
    exit_idx := i
    exit_type := ExitType.SL
    exit_cross_direction := none
    pips := roundTo 1 pips
    candles_held := i - entry_idx
    exit_reason := "Stop Loss" }

/-- The BE-ATR block of `simulate_trade` for one candle: returns the updated
`retroceso_profundo` flag and whether the break-even exit fires on it. -/
def be_check (self : SetupDetector) (direction : Direction) (entry_price : ℚ)
    (candle : Candle) (retroceso_profundo : Bool) (after_entry : Bool) : Bool × Bool :=
  if self.use_be_atr && after_entry then
    match candle.atr with
    | some atr_val =>
      if 0 < atr_val then
        let retroceso := match direction with
          | Direction.LONG => (entry_price - candle.low) / atr_val
          | Direction.SHORT => (candle.high - entry_price) / atr_val
        let retro := if self.be_atr_multiplier ≤ retroceso then true else retroceso_profundo
        let fires := retro && (match direction with
          | Direction.LONG => decide (entry_price ≤ candle.high)
          | Direction.SHORT => decide (candle.low ≤ entry_price))
        (retro, fires)
      else (retroceso_profundo, false)
    | none => (retroceso_profundo, false)
  else (retroceso_profundo, false)

/-- The dict returned by `simulate_trade` on a break-even exit. -/
def be_result (entry_price : ℚ) (entry_idx i : ℕ) (candle : Candle) : TradeResult :=
  { outcome := Outcome.BE
    exit_date := candle.datetime
    exit_price := entry_price
    exit_idx := i
    exit_type := ExitType.BE
    exit_cross_direction := none
    pips := 0
    candles_held := i - entry_idx
    exit_reason := "Break Even ATR" }

/-- The EMA-cross-reversal block of `simulate_trade` for one candle. -/
def cross_exit_check (self : SetupDetector) (df : List Candle) (direction : Direction)
    (entry_price : ℚ) (entry_idx i : ℕ) (candle : Candle) : Option TradeResult :=
  if entry_idx < i then
    match direction, detect_ema_cross df i with
    | Direction.LONG, some Direction.SHORT =>
      let exit_price := candle.close
      let pips := (exit_price - entry_price) * self.pip_factor
      some { outcome := if 0 < pips then Outcome.WIN else Outcome.LOSS
             exit_date := candle.datetime
             exit_price := exit_price
             exit_idx := i
             exit_type := ExitType.CROSS
             exit_cross_direction := some Direction.SHORT
             pips := roundTo 1 pips
             candles_held := i - entry_idx
             exit_reason := "EMA Cross Reversal" }
    | Direction.SHORT, some Direction.LONG =>
      let exit_price := candle.close
      let pips := (entry_price - exit_price) * self.pip_factor
      some { outcome := if 0 < pips then Outcome.WIN else Outcome.LOSS
             exit_date := candle.datetime
             exit_price := exit_price
             exit_idx := i
             exit_type := ExitType.CROSS
             exit_cross_direction := some Direction.LONG
             pips := roundTo 1 pips
             candles_held := i - entry_idx
             exit_reason := "EMA Cross Reversal" }
    | _, _ => none
  else none

/-- The dict returned by `simulate_trade` when the loop falls off the end of
the data.  The `none` branch mirrors `df.iloc[-1]` on an empty frame, which
raises in the source; `simulate_trade` is only called with
`entry_idx < len(df)`, so it is unreachable there. -/
def eod_result (self : SetupDetector) (df : List Candle) (direction : Direction)
    (entry_price : ℚ) (entry_idx : ℕ) : TradeResult :=
  match df.getLast? with
  | some last_candle =>
    let exit_price := last_candle.close
    let pips := match direction with
      | Direction.LONG => (exit_price - entry_price) * self.pip_factor
      | Direction.SHORT => (entry_price - exit_price) * self.pip_factor
    { outcome := if 0 < pips then Outcome.WIN else Outcome.LOSS
      exit_date := last_candle.datetime
      exit_price := exit_price
      exit_idx := df.length - 1
      exit_type := ExitType.EOD
      exit_cross_direction := none
      pips := roundTo 1 pips
      candles_held := df.length - entry_idx
      exit_reason := "End of Data" }
  | none =>
    { outcome := Outcome.LOSS
      exit_date := 0
      exit_price := 0
      exit_idx := df.length - 1
      exit_type := ExitType.EOD
      exit_cross_direction := none
      pips := 0
      candles_held := df.length - entry_idx
      exit_reason := "End of Data" }

/-- The `for i in range(entry_idx, len(df))` loop of `simulate_trade`, with
the number of remaining iterations as explicit fuel: on each candle the
stop-loss test runs first, then the BE-ATR block, then the reversal test. -/
def simulate_loop (self : SetupDetector) (df : List Candle) (entry_idx : ℕ)
    (direction : Direction) (entry_price : ℚ) :
    Bool → ℕ → ℕ → TradeResult
  | _, _, 0 => eod_result self df direction entry_price entry_idx
  | retroceso_profundo, i, fuel + 1 =>
    match df[i]? with
    | none => eod_result self df direction entry_price entry_idx
    | some candle =>
      if sl_hit direction (sl_price_of self direction entry_price) candle then
        sl_result self direction entry_price entry_idx i candle
      else
        let rp := be_check self direction entry_price candle retroceso_profundo
          (decide (entry_idx < i))
        if rp.2 then be_result entry_price entry_idx i candle
        else
          match cross_exit_check self df direction entry_price entry_idx i candle with
          | some r => r
          | none => simulate_loop self df entry_idx direction entry_price rp.1 (i + 1) fuel

/-- `SetupDetector.simulate_trade(df, entry_idx, direction, entry_price)`. -/
def simulate_trade (self : SetupDetector) (df : List Candle) (entry_idx : ℕ)
    (direction : Direction) (entry_price : ℚ) : TradeResult :=
  simulate_loop self df entry_idx direction entry_price false entry_idx (df.length - entry_idx)

/-- The state variables of the scan loop in `detect_all_setups`
(`last_cross_direction`, `separation_achieved`, `skip_until_idx`). -/
structure ScanState where
  last_cross_direction : Option Direction
  separation_achieved : Bool
  skip_until_idx : ℕ
deriving DecidableEq, Repr

/-- `self.be_activated += 1` happens in `simulate_trade` exactly on its two
break-even return paths, so the increment equals this function of the result. -/
def be_increment (trade_result : TradeResult) : ℕ :=
  if trade_result.exit_type = ExitType.BE then 1 else 0

/-- `SetupDetector._process_entry(df, entry_idx, direction, candle)`:
simulates the trade, appends the setup record to `self.setups` (and applies
`simulate_trade`'s own `be_activated` increment), returns the trade result. -/
def process_entry (self : SetupDetector) (st : DetectorState) (df : List Candle)
    (entry_idx : ℕ) (direction : Direction) (candle : Candle) :
    TradeResult × DetectorState :=
  let entry_price := candle.ema20
  let trade_result := simulate_trade self df entry_idx direction entry_price
  let setup : Setup :=
    { setup_id := st.setups.length + 1
      entry_date := candle.datetime
      direction := direction
      entry_price := roundTo self.decimals entry_price
      sl_price := roundTo self.decimals (sl_price_of self direction entry_price)
      exit_date := trade_result.exit_date
      exit_price := roundTo self.decimals trade_result.exit_price
      exit_reason := trade_result.exit_reason
      outcome := trade_result.outcome
      pips := trade_result.pips
      candles_held := trade_result.candles_held }
  (trade_result,
   { st with
      setups := st.setups ++ [setup]
      be_activated := st.be_activated + be_increment trade_result })

/-- The post-exit state update of `detect_all_setups`: stop-loss and
break-even reset the cross direction, a reversal exit installs the reversal
cross as the new signal, end-of-data only moves the skip index. -/
def exit_transition (scan : ScanState) (trade_result : TradeResult) : ScanState :=
  match trade_result.exit_type with
  | ExitType.SL =>
    { last_cross_direction := none
      separation_achieved := false
      skip_until_idx := trade_result.exit_idx }
  | ExitType.BE =>
    { last_cross_direction := none
      separation_achieved := false
      skip_until_idx := trade_result.exit_idx }
  | ExitType.CROSS =>
    { last_cross_direction := trade_result.exit_cross_direction
      separation_achieved := false
      skip_until_idx := trade_result.exit_idx }
  | ExitType.EOD =>
    { scan with skip_until_idx := trade_result.exit_idx }

/-- The body of the `for i in range(1, len(analysis_df))` loop of
`detect_all_setups`, acting on one candle. -/
def scan_step (self : SetupDetector) (df : List Candle) (df_htf : Option (List Candle))
    (i : ℕ) (candle : Candle) (scan : ScanState) (st : DetectorState) :
    ScanState × DetectorState :=
  if i ≤ scan.skip_until_idx then (scan, st)
  else
    match detect_ema_cross df i with
    | some cross =>
      ({ last_cross_direction := some cross
         separation_achieved := false
         skip_until_idx := scan.skip_until_idx }, st)
    | none =>
      match scan.last_cross_direction with
      | none => (scan, st)
      | some direction =>
        let separation_achieved := scan.separation_achieved || check_separation self candle
        let scan1 := { scan with separation_achieved := separation_achieved }
        if separation_achieved && check_ema_touch candle then
          if !check_di_h4_filter self df_htf candle.datetime direction then
            (scan1, { st with filtered_by_di_h4 := st.filtered_by_di_h4 + 1 })
          else
            let r := process_entry self st df i direction candle
            (exit_transition scan1 r.1, r.2)
        else (scan1, st)

/-- The scan loop of `detect_all_setups`, with remaining iterations as fuel. -/
def scan_loop (self : SetupDetector) (df : List Candle) (df_htf : Option (List Candle)) :
    ℕ → ScanState → DetectorState → ℕ → DetectorState
  | _, _, st, 0 => st
  | i, scan, st, fuel + 1 =>
    match df[i]? with
    | none => st
    | some candle =>
      let s := scan_step self df df_htf i candle scan st
      scan_loop self df df_htf (i + 1) s.1 s.2 fuel

/-- The date-range mask `(df['datetime'] >= start) & (df['datetime'] <= end)`
followed by `reset_index`. -/
def filter_range (df : List Candle) (start_date end_date : ℤ) : List Candle :=
  df.filter (fun c => decide (start_date ≤ c.datetime) && decide (c.datetime ≤ end_date))

/-- `SetupDetector.detect_all_setups(df, df_htf, start_date, end_date)`:
returns the list the call returns (`[]` on an empty range, `self.setups`
otherwise) together with the updated instance state. -/
def detect_all_setups (self : SetupDetector) (st : DetectorState) (df : List Candle)
    (df_htf : Option (List Candle)) (start_date end_date : ℤ) :
    List Setup × DetectorState :=
  let analysis_df := filter_range df start_date end_date
  if analysis_df.length = 0 then ([], st)
  else
    let st1 := scan_loop self analysis_df df_htf 1
      { last_cross_direction := none, separation_achieved := false, skip_until_idx := 0 }
      st (analysis_df.length - 1)
    (st1.setups, st1)

/-- The statistics computed by `get_executive_summary`. -/
structure Summary where
  total_setups : ℕ
  wins : ℕ
  losses : ℕ
  be_count : ℕ
  win_rate : ℚ
  total_pips : ℚ
  avg_pips : ℚ
  avg_winner : ℚ
  avg_loser : ℚ
  avg_hold : ℚ
deriving DecidableEq, Repr

/-- Sum of the `pips` column of a setup list. -/
def sum_pips (setups : List Setup) : ℚ :=
  (setups.map Setup.pips).sum

/-- The rows of a setup list with the given outcome label. -/
def outcome_rows (setups : List Setup) (label : Outcome) : List Setup :=
  setups.filter (fun s => decide (s.outcome = label))

/-- `SetupDetector.get_executive_summary`: on an empty `self.setups` the
method prints a notice and returns early without computing any statistics
(modelled as `none`); otherwise it computes and displays these figures. -/
def get_executive_summary (setups : List Setup) : Option Summary :=
  if setups.length = 0 then none
  else
    let total_setups := setups.length
    let wins := (outcome_rows setups Outcome.WIN).length
    let losses := (outcome_rows setups Outcome.LOSS).length
    let be_count := (outcome_rows setups Outcome.BE).length
    some
      { total_setups := total_setups
        wins := wins
        losses := losses
        be_count := be_count
        win_rate := if 0 < total_setups then (wins : ℚ) / total_setups * 100 else 0
        total_pips := sum_pips setups
        avg_pips := sum_pips setups / total_setups
        avg_winner := if 0 < wins then sum_pips (outcome_rows setups Outcome.WIN) / wins else 0
        avg_loser := if 0 < losses then sum_pips (outcome_rows setups Outcome.LOSS) / losses else 0
        avg_hold := ((setups.map (fun s => (s.candles_held : ℚ))).sum) / total_setups }

/-! ## Helper lemmas about the exit records -/

lemma eod_result_fields (self : SetupDetector) (df : List Candle) (direction : Direction)
    (entry_price : ℚ) (entry_idx : ℕ) :
    (eod_result self df direction entry_price entry_idx).exit_type = ExitType.EOD ∧
    (eod_result self df direction entry_price entry_idx).candles_held = df.length - entry_idx ∧
    (eod_result self df direction entry_price entry_idx).exit_idx = df.length - 1 := by
  rcases h : df.getLast? with _ | c <;> simp [eod_result, h]

lemma cross_exit_check_some (self : SetupDetector) (df : List Candle) (direction : Direction)
    (entry_price : ℚ) (entry_idx i : ℕ) (candle : Candle) (r : TradeResult)
    (h : cross_exit_check self df direction entry_price entry_idx i candle = some r) :
    r.exit_type = ExitType.CROSS ∧ r.exit_idx = i ∧ r.candles_held = i - entry_idx ∧
    entry_idx < i := by
  unfold cross_exit_check at h
  by_cases hlt : entry_idx < i
  · rw [if_pos hlt] at h
    split at h
    · rw [← Option.some.inj h]; exact ⟨rfl, rfl, rfl, hlt⟩
    · rw [← Option.some.inj h]; exact ⟨rfl, rfl, rfl, hlt⟩
    · cases h
  · rw [if_neg hlt] at h
    cases h

/-- C4: cross detection at index `i > 0` returns a bullish (long) cross exactly
when `fast[i-1] ≤ slow[i-1]` and `fast[i] > slow[i]`, a bearish (short) cross
exactly under the mirror inequalities, the two firing conditions are mutually
exclusive, and index 0 never registers a cross. -/
theorem detect_ema_cross_spec (df : List Candle) (i : ℕ) (p c : Candle)
    (hi : i ≠ 0) (hp : df[i - 1]? = some p) (hc : df[i]? = some c) :
    (detect_ema_cross df i = some Direction.LONG ↔ p.ema20 ≤ p.ema50 ∧ c.ema50 < c.ema20) ∧
    (detect_ema_cross df i = some Direction.SHORT ↔ p.ema50 ≤ p.ema20 ∧ c.ema20 < c.ema50) ∧
    ¬((p.ema20 ≤ p.ema50 ∧ c.ema50 < c.ema20) ∧ (p.ema50 ≤ p.ema20 ∧ c.ema20 < c.ema50)) ∧
    detect_ema_cross df 0 = none := by
  have hexcl : ¬((p.ema20 ≤ p.ema50 ∧ c.ema50 < c.ema20) ∧
      (p.ema50 ≤ p.ema20 ∧ c.ema20 < c.ema50)) := by
    rintro ⟨⟨_, h1⟩, ⟨_, h2⟩⟩
    exact absurd h2 (not_lt.mpr (le_of_lt h1))
  refine ⟨?_, ?_, hexcl, by simp [detect_ema_cross]⟩ <;>
  · simp only [detect_ema_cross, hi, if_false, hp, hc]
    split_ifs with h1 h2 <;> simp_all

/-- C2: `simulate_trade` evaluates the exit rules on each candle in the fixed
priority order stop-loss, break-even, crossover reversal, returning at the
first rule that fires: whenever the forward scan reaches candle `i` (any
break-even flag state), a satisfied stop-loss condition yields the stop-loss
exit regardless of the other rules; the break-even exit fires only when the
stop-loss did not; the reversal exit only when neither did; otherwise the scan
moves to the next candle. -/
theorem simulate_trade_priority (self : SetupDetector) (df : List Candle) (entry_idx : ℕ)
    (direction : Direction) (entry_price : ℚ) (retro : Bool) (i fuel : ℕ) (candle : Candle)
    (hc : df[i]? = some candle) :
    (sl_hit direction (sl_price_of self direction entry_price) candle = true →
      simulate_loop self df entry_idx direction entry_price retro i (fuel + 1) =
        sl_result self direction entry_price entry_idx i candle) ∧
    (sl_hit direction (sl_price_of self direction entry_price) candle = false →
      (be_check self direction entry_price candle retro (decide (entry_idx < i))).2 = true →
      simulate_loop self df entry_idx direction entry_price retro i (fuel + 1) =
        be_result entry_price entry_idx i candle) ∧
    (sl_hit direction (sl_price_of self direction entry_price) candle = false →
      (be_check self direction entry_price candle retro (decide (entry_idx < i))).2 = false →
      ∀ r, cross_exit_check self df direction entry_price entry_idx i candle = some r →
      simulate_loop self df entry_idx direction entry_price retro i (fuel + 1) = r) ∧
    (sl_hit direction (sl_price_of self direction entry_price) candle = false →
      (be_check self direction entry_price candle retro (decide (entry_idx < i))).2 = false →
      cross_exit_check self df direction entry_price entry_idx i candle = none →
      simulate_loop self df entry_idx direction entry_price retro i (fuel + 1) =
        simulate_loop self df entry_idx direction entry_price
          (be_check self direction entry_price candle retro (decide (entry_idx < i))).1
          (i + 1) fuel) := by
  refine ⟨fun hsl => ?_, fun hsl hbe => ?_, fun hsl hbe r hr => ?_, fun hsl hbe hcr => ?_⟩
  · simp [simulate_loop, hc, hsl]
  · simp [simulate_loop, hc, hsl, hbe]
  · simp [simulate_loop, hc, hsl, hbe, hr]
  · simp [simulate_loop, hc, hsl, hbe, hcr]

/-- If the forward scan (started at index `i`) returns a stop-loss exit, the
exit sits at the first index at or after `i` whose candle satisfies the
stop-loss condition, and the returned record is the stop-loss record there. -/
lemma simulate_loop_sl_char (self : SetupDetector) (df : List Candle) (entry_idx : ℕ)
    (direction : Direction) (entry_price : ℚ) :
    ∀ fuel i retro,
      (simulate_loop self df entry_idx direction entry_price retro i fuel).exit_type =
        ExitType.SL →
      ∃ k candle, df[k]? = some candle ∧ i ≤ k ∧
        sl_hit direction (sl_price_of self direction entry_price) candle = true ∧
        (∀ j cj, i ≤ j → j < k → df[j]? = some cj →
          sl_hit direction (sl_price_of self direction entry_price) cj = false) ∧
        simulate_loop self df entry_idx direction entry_price retro i fuel =
          sl_result self direction entry_price entry_idx k candle := by
  intro fuel
  induction fuel with
  | zero =>
    intro i retro h
    exfalso
    simp only [simulate_loop] at h
    rw [(eod_result_fields self df direction entry_price entry_idx).1] at h
    cases h
  | succ fuel ih =>
    intro i retro h
    rcases hc : df[i]? with _ | candle
    · exfalso
      simp only [simulate_loop, hc] at h
      rw [(eod_result_fields self df direction entry_price entry_idx).1] at h
      cases h
    · by_cases hsl : sl_hit direction (sl_price_of self direction entry_price) candle = true
      · refine ⟨i, candle, hc, le_refl i, hsl, ?_, ?_⟩
        · intro j cj hij hji _
          omega
        · simp [simulate_loop, hc, hsl]
      · have hslf : sl_hit direction (sl_price_of self direction entry_price) candle = false :=
          Bool.not_eq_true _ ▸ Bool.of_not_eq_true hsl
        by_cases hbe :
            (be_check self direction entry_price candle retro (decide (entry_idx < i))).2 = true
        · exfalso
          simp [simulate_loop, hc, hslf, hbe, be_result] at h
        · have hbef :
              (be_check self direction entry_price candle retro (decide (entry_idx < i))).2 =
                false := Bool.not_eq_true _ ▸ Bool.of_not_eq_true hbe
          rcases hcr : cross_exit_check self df direction entry_price entry_idx i candle with
            _ | r
          · have h' :
                (simulate_loop self df entry_idx direction entry_price
                  (be_check self direction entry_price candle retro
                    (decide (entry_idx < i))).1 (i + 1) fuel).exit_type = ExitType.SL := by
              simpa [simulate_loop, hc, hslf, hbef, hcr] using h
            obtain ⟨k, ck, hck, hik, hslk, hmin, heq⟩ := ih (i + 1) _ h'
            refine ⟨k, ck, hck, by omega, hslk, ?_, ?_⟩
            · intro j cj hij hjk hj
              rcases eq_or_lt_of_le hij with rfl | hlt
              · rw [hj] at hc
                cases Option.some.inj hc
                exact hslf
              · exact hmin j cj (by omega) hjk hj
            · simpa [simulate_loop, hc, hslf, hbef, hcr] using heq
          · exfalso
            have hcross := (cross_exit_check_some self df direction entry_price entry_idx i
              candle r hcr).1
            simp [simulate_loop, hc, hslf, hbef, hcr, hcross] at h

/-- C5: the stop-loss rule sits at fixed distance `stop_loss_pips / pip_factor`
from the entry price; a stop-loss exit happens on the first candle from the
entry index onward whose low (long) reaches `entry − distance`, resp. whose
high (short) reaches `entry + distance`, and then the trade is recorded as a
loss with pips `round(−stop_loss_pips, 1)` and exit price equal to the
stop-loss price. -/
theorem stop_loss_rule_spec (self : SetupDetector) (df : List Candle) (entry_idx : ℕ)
    (direction : Direction) (entry_price : ℚ) (hpf : self.pip_factor ≠ 0)
    (hsl : (simulate_trade self df entry_idx direction entry_price).exit_type = ExitType.SL) :
    ∃ k candle, df[k]? = some candle ∧ entry_idx ≤ k ∧
      (direction = Direction.LONG →
        candle.low ≤ entry_price - self.stop_loss_pips / self.pip_factor) ∧
      (direction = Direction.SHORT →
        entry_price + self.stop_loss_pips / self.pip_factor ≤ candle.high) ∧
      (∀ j cj, entry_idx ≤ j → j < k → df[j]? = some cj →
        sl_hit direction (sl_price_of self direction entry_price) cj = false) ∧
      (simulate_trade self df entry_idx direction entry_price).exit_idx = k ∧
      (simulate_trade self df entry_idx direction entry_price).exit_price =
        sl_price_of self direction entry_price ∧
      (simulate_trade self df entry_idx direction entry_price).pips =
        roundTo 1 (-self.stop_loss_pips) ∧
      (simulate_trade self df entry_idx direction entry_price).outcome = Outcome.LOSS := by
  obtain ⟨k, candle, hck, hik, hhit, hmin, heq⟩ :=
    simulate_loop_sl_char self df entry_idx direction entry_price
      (df.length - entry_idx) entry_idx false hsl
  refine ⟨k, candle, hck, hik, ?_, ?_, hmin, ?_, ?_, ?_, ?_⟩
  · rintro rfl
    simpa [sl_hit, sl_price_of, sl_distance] using hhit
  · rintro rfl
    simpa [sl_hit, sl_price_of, sl_distance] using hhit
  · rw [show simulate_trade self df entry_idx direction entry_price =
      simulate_loop self df entry_idx direction entry_price false entry_idx
        (df.length - entry_idx) from rfl, heq]
    simp [sl_result]
  · rw [show simulate_trade self df entry_idx direction entry_price =
      simulate_loop self df entry_idx direction entry_price false entry_idx
        (df.length - entry_idx) from rfl, heq]
    simp [sl_result]
  · rw [show simulate_trade self df entry_idx direction entry_price =
      simulate_loop self df entry_idx direction entry_price false entry_idx
        (df.length - entry_idx) from rfl, heq]
    simp only [sl_result]
    cases direction <;>
    · congr 1
      simp only [sl_price_of, sl_distance]
      field_simp
      all_goals ring
  · rw [show simulate_trade self df entry_idx direction entry_price =
      simulate_loop self df entry_idx direction entry_price false entry_idx
        (df.length - entry_idx) from rfl, heq]
    simp [sl_result]

/-- The `retroceso` expression of the BE-ATR block: adverse excursion from the
entry price divided by the candle's ATR value. -/
def retracement (direction : Direction) (entry_price : ℚ) (candle : Candle) (a : ℚ) : ℚ :=
  match direction with
  | Direction.LONG => (entry_price - candle.low) / a
  | Direction.SHORT => (candle.high - entry_price) / a

/-- The return-to-entry test of the BE-ATR block
(long: `high >= entry`, short: `low <= entry`). -/
def price_return (direction : Direction) (entry_price : ℚ) (candle : Candle) : Bool :=
  match direction with
  | Direction.LONG => decide (entry_price ≤ candle.high)
  | Direction.SHORT => decide (candle.low ≤ entry_price)

/-- Eliminating a firing break-even check: the filter must be enabled, the
candle must lie after the entry candle, its ATR must be positive, and price
must have returned to or through the entry price. -/
lemma be_check_fires_elim (self : SetupDetector) (direction : Direction) (entry_price : ℚ)
    (candle : Candle) (retro g : Bool)
    (h : (be_check self direction entry_price candle retro g).2 = true) :
    self.use_be_atr = true ∧ g = true ∧ (∃ a, candle.atr = some a ∧ 0 < a) ∧
    (direction = Direction.LONG → entry_price ≤ candle.high) ∧
    (direction = Direction.SHORT → candle.low ≤ entry_price) := by
  unfold be_check at h
  by_cases hug : (self.use_be_atr && g) = true
  · rw [if_pos hug] at h
    rcases ha : candle.atr with _ | a <;> rw [ha] at h <;> dsimp only at h
    · cases h
    · by_cases hpos : 0 < a
      · rw [if_pos hpos] at h
        dsimp only at h
        simp only [Bool.and_eq_true] at h hug
        refine ⟨hug.1, hug.2, ⟨a, rfl, hpos⟩, ?_, ?_⟩
        · rintro rfl
          simpa using h.2
        · rintro rfl
          simpa using h.2
      · rw [if_neg hpos] at h
        dsimp only at h
        cases h
  · rw [if_neg hug] at h
    cases h

/-- With the break-even filter enabled, after the entry candle, and a positive
ATR value, the break-even block updates the flag to
`flag OR (retracement ≥ multiplier)` and fires exactly when the updated flag
is set and price has returned to or through the entry price. -/
lemma be_check_eq_of_valid (self : SetupDetector) (direction : Direction) (entry_price : ℚ)
    (candle : Candle) (retro : Bool) (hbe : self.use_be_atr = true) {a : ℚ}
    (ha : candle.atr = some a) (hpos : 0 < a) :
    be_check self direction entry_price candle retro true =
      ((retro || decide (self.be_atr_multiplier ≤ retracement direction entry_price candle a)),
       (retro || decide (self.be_atr_multiplier ≤ retracement direction entry_price candle a)) &&
         price_return direction entry_price candle) := by
  unfold be_check retracement price_return
  rw [hbe, ha]
  simp only [Bool.and_true, Bool.true_and, if_pos hpos]
  have hflag : (if self.be_atr_multiplier ≤ (match direction with
      | Direction.LONG => (entry_price - candle.low) / a
      | Direction.SHORT => (candle.high - entry_price) / a) then true else retro) =
      (retro || decide (self.be_atr_multiplier ≤ match direction with
        | Direction.LONG => (entry_price - candle.low) / a
        | Direction.SHORT => (candle.high - entry_price) / a)) := by
    split <;> simp_all
  rw [hflag]
  simp

/-- A break-even check on a candle whose ATR value is missing or non-positive
leaves the flag unchanged and does not fire. -/
lemma be_check_invalid (self : SetupDetector) (direction : Direction) (entry_price : ℚ)
    (candle : Candle) (retro g : Bool) (h : ∀ a, candle.atr = some a → a ≤ 0) :
    be_check self direction entry_price candle retro g = (retro, false) := by
  unfold be_check
  rcases ha : candle.atr with _ | a
  · split <;> simp [ha]
  · have := h a ha
    split <;> simp [ha, not_lt.mpr this]

/-- A break-even check before or on the entry candle (guard false) leaves the
flag unchanged and does not fire. -/
lemma be_check_entry_candle (self : SetupDetector) (direction : Direction) (entry_price : ℚ)
    (candle : Candle) (retro : Bool) :
    be_check self direction entry_price candle retro false = (retro, false) := by
  unfold be_check
  simp

/-- Once set, the deep-retracement flag survives any further check. -/
lemma be_check_sticky (self : SetupDetector) (direction : Direction) (entry_price : ℚ)
    (candle : Candle) (g : Bool) :
    (be_check self direction entry_price candle true g).1 = true := by
  unfold be_check
  split
  · rcases candle.atr with _ | a
    · rfl
    · dsimp only
      split
      · split <;> rfl
      · rfl
  · rfl

/-- If the forward scan returns a break-even exit, the exit candle lies
strictly after the entry candle, the filter is enabled, that candle's ATR is
positive, price returned to or through the entry price there, and the record
is the break-even record of that candle. -/
lemma simulate_loop_be_char (self : SetupDetector) (df : List Candle) (entry_idx : ℕ)
    (direction : Direction) (entry_price : ℚ) :
    ∀ fuel i retro,
      (simulate_loop self df entry_idx direction entry_price retro i fuel).exit_type =
        ExitType.BE →
      ∃ k candle, df[k]? = some candle ∧ i ≤ k ∧ entry_idx < k ∧
        self.use_be_atr = true ∧ (∃ a, candle.atr = some a ∧ 0 < a) ∧
        (direction = Direction.LONG → entry_price ≤ candle.high) ∧
        (direction = Direction.SHORT → candle.low ≤ entry_price) ∧
        simulate_loop self df entry_idx direction entry_price retro i fuel =
          be_result entry_price entry_idx k candle := by
  intro fuel
  induction fuel with
  | zero =>
    intro i retro h
    exfalso
    simp only [simulate_loop] at h
    rw [(eod_result_fields self df direction entry_price entry_idx).1] at h
    cases h
  | succ fuel ih =>
    intro i retro h
    rcases hc : df[i]? with _ | candle
    · exfalso
      simp only [simulate_loop, hc] at h
      rw [(eod_result_fields self df direction entry_price entry_idx).1] at h
      cases h
    · by_cases hsl : sl_hit direction (sl_price_of self direction entry_price) candle = true
      · exfalso
        simp [simulate_loop, hc, hsl, sl_result] at h
      · have hslf : sl_hit direction (sl_price_of self direction entry_price) candle = false :=
          Bool.not_eq_true _ ▸ Bool.of_not_eq_true hsl
        by_cases hbe :
            (be_check self direction entry_price candle retro (decide (entry_idx < i))).2 = true
        · obtain ⟨_, hg, ha, hlong, hshort⟩ :=
            be_check_fires_elim self direction entry_price candle retro _ hbe
          have hik : entry_idx < i := by simpa using hg
          refine ⟨i, candle, hc, le_refl i, hik,
            (be_check_fires_elim self direction entry_price candle retro _ hbe).1,
            ha, hlong, hshort, ?_⟩
          simp [simulate_loop, hc, hslf, hbe]
        · have hbef :
              (be_check self direction entry_price candle retro (decide (entry_idx < i))).2 =
                false := Bool.not_eq_true _ ▸ Bool.of_not_eq_true hbe
          rcases hcr : cross_exit_check self df direction entry_price entry_idx i candle with
            _ | r
          · have h' :
                (simulate_loop self df entry_idx direction entry_price
                  (be_check self direction entry_price candle retro
                    (decide (entry_idx < i))).1 (i + 1) fuel).exit_type = ExitType.BE := by
              simpa [simulate_loop, hc, hslf, hbef, hcr] using h
            obtain ⟨k, ck, hck, hik, hek, hben, hak, hlk, hsk, heq⟩ := ih (i + 1) _ h'
            exact ⟨k, ck, hck, by omega, hek, hben, hak, hlk, hsk, by
              simpa [simulate_loop, hc, hslf, hbef, hcr] using heq⟩
          · exfalso
            have hcross := (cross_exit_check_some self df direction entry_price entry_idx i
              candle r hcr).1
            simp [simulate_loop, hc, hslf, hbef, hcr, hcross] at h

/-- C6: the break-even-by-volatility rule is skipped on the entry candle; the
deep-retracement flag is updated to `flag OR (adverse excursion / ATR ≥
multiplier)` and, once true, survives every later check; with the flag set the
rule fires as soon as price returns to or through the entry price, closing at
exactly the entry price for 0.0 pips with outcome break-even; a candle with
missing or non-positive ATR skips the break-even check for that candle only,
leaving the flag and the stop-loss and reversal checks unaffected. -/
theorem be_atr_rule_spec (self : SetupDetector) (df : List Candle) (entry_idx : ℕ)
    (direction : Direction) (entry_price : ℚ) :
    ((simulate_trade self df entry_idx direction entry_price).exit_type = ExitType.BE →
      ∃ k candle, df[k]? = some candle ∧ entry_idx < k ∧ self.use_be_atr = true ∧
        (∃ a, candle.atr = some a ∧ 0 < a) ∧
        (direction = Direction.LONG → entry_price ≤ candle.high) ∧
        (direction = Direction.SHORT → candle.low ≤ entry_price) ∧
        (simulate_trade self df entry_idx direction entry_price).exit_idx = k ∧
        (simulate_trade self df entry_idx direction entry_price).exit_price = entry_price ∧
        (simulate_trade self df entry_idx direction entry_price).pips = 0 ∧
        (simulate_trade self df entry_idx direction entry_price).outcome = Outcome.BE) ∧
    (∀ candle g, (be_check self direction entry_price candle true g).1 = true) ∧
    (∀ candle retro a, self.use_be_atr = true → candle.atr = some a → 0 < a →
      be_check self direction entry_price candle retro true =
        ((retro || decide (self.be_atr_multiplier ≤ retracement direction entry_price candle a)),
         (retro || decide (self.be_atr_multiplier ≤ retracement direction entry_price candle a))
           && price_return direction entry_price candle)) ∧
    (∀ candle retro, be_check self direction entry_price candle retro false = (retro, false)) ∧
    (∀ candle retro g, (∀ a, candle.atr = some a → a ≤ 0) →
      be_check self direction entry_price candle retro g = (retro, false)) ∧
    (∀ i fuel candle retro, df[i]? = some candle →
      (∀ a, candle.atr = some a → a ≤ 0) →
      simulate_loop self df entry_idx direction entry_price retro i (fuel + 1) =
        if sl_hit direction (sl_price_of self direction entry_price) candle then
          sl_result self direction entry_price entry_idx i candle
        else
          match cross_exit_check self df direction entry_price entry_idx i candle with
          | some r => r
          | none => simulate_loop self df entry_idx direction entry_price retro (i + 1) fuel) := by
  refine ⟨fun h => ?_, fun candle g => be_check_sticky self direction entry_price candle g,
    fun candle retro a hbe ha hpos => be_check_eq_of_valid self direction entry_price candle
      retro hbe ha hpos,
    fun candle retro => be_check_entry_candle self direction entry_price candle retro,
    fun candle retro g hinv => be_check_invalid self direction entry_price candle retro g hinv,
    fun i fuel candle retro hc hinv => ?_⟩
  · obtain ⟨k, candle, hck, _, hek, hben, hak, hlk, hsk, heq⟩ :=
      simulate_loop_be_char self df entry_idx direction entry_price
        (df.length - entry_idx) entry_idx false h
    refine ⟨k, candle, hck, hek, hben, hak, hlk, hsk, ?_, ?_, ?_, ?_⟩ <;>
    · rw [show simulate_trade self df entry_idx direction entry_price =
        simulate_loop self df entry_idx direction entry_price false entry_idx
          (df.length - entry_idx) from rfl, heq]
      simp [be_result]
  · have hskip := be_check_invalid self direction entry_price candle retro
      (decide (entry_idx < i)) hinv
    by_cases hsl : sl_hit direction (sl_price_of self direction entry_price) candle = true
    · simp [simulate_loop, hc, hsl]
    · have hslf : sl_hit direction (sl_price_of self direction entry_price) candle = false :=
        Bool.not_eq_true _ ▸ Bool.of_not_eq_true hsl
      rcases hcr : cross_exit_check self df direction entry_price entry_idx i candle with _ | r <;>
        simp [simulate_loop, hc, hslf, hskip, hcr]

/-- Every result of the forward scan is either the end-of-data record (holding
length `len − entry_idx`, exit index `len − 1`) or a rule exit at some reached
in-range index `k` with holding length `k − entry_idx`. -/
lemma simulate_loop_shape (self : SetupDetector) (df : List Candle) (entry_idx : ℕ)
    (direction : Direction) (entry_price : ℚ) :
    ∀ fuel i retro,
      ((simulate_loop self df entry_idx direction entry_price retro i fuel).exit_type =
          ExitType.EOD ∧
        (simulate_loop self df entry_idx direction entry_price retro i fuel).candles_held =
          df.length - entry_idx ∧
        (simulate_loop self df entry_idx direction entry_price retro i fuel).exit_idx =
          df.length - 1) ∨
      ((simulate_loop self df entry_idx direction entry_price retro i fuel).exit_type ≠
          ExitType.EOD ∧
        (simulate_loop self df entry_idx direction entry_price retro i fuel).candles_held =
          (simulate_loop self df entry_idx direction entry_price retro i fuel).exit_idx -
            entry_idx ∧
        i ≤ (simulate_loop self df entry_idx direction entry_price retro i fuel).exit_idx ∧
        (simulate_loop self df entry_idx direction entry_price retro i fuel).exit_idx <
          df.length) := by
  intro fuel
  induction fuel with
  | zero =>
    intro i retro
    left
    simpa only [simulate_loop] using eod_result_fields self df direction entry_price entry_idx
  | succ fuel ih =>
    intro i retro
    rcases hc : df[i]? with _ | candle
    · left
      simpa only [simulate_loop, hc] using
        eod_result_fields self df direction entry_price entry_idx
    · have hlen : i < df.length := by
        by_contra hge
        rw [List.getElem?_eq_none (le_of_not_lt hge)] at hc
        cases hc
      by_cases hsl : sl_hit direction (sl_price_of self direction entry_price) candle = true
      · right
        simp [simulate_loop, hc, hsl, sl_result]
        exact hlen
      · have hslf : sl_hit direction (sl_price_of self direction entry_price) candle = false :=
          Bool.not_eq_true _ ▸ Bool.of_not_eq_true hsl
        by_cases hbe :
            (be_check self direction entry_price candle retro (decide (entry_idx < i))).2 = true
        · right
          simp [simulate_loop, hc, hslf, hbe, be_result]
          exact hlen
        · have hbef :
              (be_check self direction entry_price candle retro (decide (entry_idx < i))).2 =
                false := Bool.not_eq_true _ ▸ Bool.of_not_eq_true hbe
          rcases hcr : cross_exit_check self df direction entry_price entry_idx i candle with
            _ | r
          · have heq : simulate_loop self df entry_idx direction entry_price retro i
                (fuel + 1) = simulate_loop self df entry_idx direction entry_price
                  (be_check self direction entry_price candle retro
                    (decide (entry_idx < i))).1 (i + 1) fuel := by
              simp [simulate_loop, hc, hslf, hbef, hcr]
            rw [heq]
            rcases ih (i + 1) ((be_check self direction entry_price candle retro
              (decide (entry_idx < i))).1) with h | h
            · exact Or.inl h
            · exact Or.inr ⟨h.1, h.2.1, by omega, h.2.2.2⟩
          · have heq : simulate_loop self df entry_idx direction entry_price retro i
                (fuel + 1) = r := by
              simp [simulate_loop, hc, hslf, hbef, hcr]
            obtain ⟨ht, hx, hh, _⟩ :=
              cross_exit_check_some self df direction entry_price entry_idx i candle r hcr
            rw [heq]
            right
            rw [ht, hx, hh]
            exact ⟨by simp, rfl, by omega, by omega⟩

/-- C10: a trade that reaches the end of the series without an exit rule firing
records holding length `len(series) − entry_idx`, one more than
`last_index − entry_idx`, while every stop-loss, break-even or reversal exit
records `exit_idx − entry_idx`; hence a trade closed on the final candle by a
rule records one candle less than one closed there by end-of-data. -/
theorem candles_held_spec (self : SetupDetector) (df : List Candle) (entry_idx : ℕ)
    (direction : Direction) (entry_price : ℚ) :
    ((simulate_trade self df entry_idx direction entry_price).exit_type = ExitType.EOD →
      (simulate_trade self df entry_idx direction entry_price).candles_held =
        df.length - entry_idx) ∧
    ((simulate_trade self df entry_idx direction entry_price).exit_type ≠ ExitType.EOD →
      (simulate_trade self df entry_idx direction entry_price).candles_held =
        (simulate_trade self df entry_idx direction entry_price).exit_idx - entry_idx) ∧
    ((simulate_trade self df entry_idx direction entry_price).exit_type ≠ ExitType.EOD →
      (simulate_trade self df entry_idx direction entry_price).exit_idx = df.length - 1 →
      entry_idx < df.length →
      (simulate_trade self df entry_idx direction entry_price).candles_held + 1 =
        df.length - entry_idx) := by
  rcases simulate_loop_shape self df entry_idx direction entry_price
    (df.length - entry_idx) entry_idx false with h | h
  · exact ⟨fun _ => h.2.1, fun hne => absurd h.1 hne, fun hne _ _ => absurd h.1 hne⟩
  · refine ⟨fun he => absurd he h.1, fun _ => h.2.1, fun _ hx hlt => ?_⟩
    have h1 := h.2.1
    have h2 := h.2.2.2
    rw [show simulate_trade self df entry_idx direction entry_price =
      simulate_loop self df entry_idx direction entry_price false entry_idx
        (df.length - entry_idx) from rfl] at hx ⊢
    omega

/-- C3: after a simulated trade exits, the scan-state update depends only on
the exit reason — stop-loss and break-even clear the cross direction and the
separation flag, a reversal exit installs the reversal direction as the new
cross with the separation flag cleared, and in every case the skip index
becomes the exit index so that scanning resumes at the following index (all
indices up to the skip index are consumed without any state change); while the
cross direction is `None` no candle can produce an entry — the state can only
change through a fresh cross — whereas with a direction installed (as after a
reversal exit) a separated touching candle that passes the filter immediately
produces an entry without any additional independent cross. -/
theorem exit_state_transition_spec (self : SetupDetector) (df : List Candle)
    (df_htf : Option (List Candle)) :
    (∀ scan r, r.exit_type = ExitType.SL ∨ r.exit_type = ExitType.BE →
      exit_transition scan r =
        { last_cross_direction := none, separation_achieved := false,
          skip_until_idx := r.exit_idx }) ∧
    (∀ scan r, r.exit_type = ExitType.CROSS →
      exit_transition scan r =
        { last_cross_direction := r.exit_cross_direction, separation_achieved := false,
          skip_until_idx := r.exit_idx }) ∧
    (∀ scan r, (exit_transition scan r).skip_until_idx = r.exit_idx) ∧
    (∀ i candle scan st, i ≤ scan.skip_until_idx →
      scan_step self df df_htf i candle scan st = (scan, st)) ∧
    (∀ i candle scan st, scan.last_cross_direction = none → scan.skip_until_idx < i →
      (scan_step self df df_htf i candle scan st).2 = st ∧
      ((scan_step self df df_htf i candle scan st).1 = scan ∨
        ∃ cross, detect_ema_cross df i = some cross ∧
          (scan_step self df df_htf i candle scan st).1 =
            { last_cross_direction := some cross, separation_achieved := false,
              skip_until_idx := scan.skip_until_idx })) ∧
    (∀ i candle scan st direction, scan.skip_until_idx < i →
      detect_ema_cross df i = none →
      scan.last_cross_direction = some direction →
      (scan.separation_achieved || check_separation self candle) = true →
      check_ema_touch candle = true →
      check_di_h4_filter self df_htf candle.datetime direction = true →
      (scan_step self df df_htf i candle scan st).2.setups.length = st.setups.length + 1) := by
  refine ⟨fun scan r h => ?_, fun scan r h => ?_, fun scan r => ?_,
    fun i candle scan st h => ?_, fun i candle scan st hnone hskip => ?_,
    fun i candle scan st direction hskip hcross hdir hsep htouch hfilter => ?_⟩
  · rcases h with h | h <;> simp [exit_transition, h]
  · simp [exit_transition, h]
  · unfold exit_transition
    split <;> rfl
  · unfold scan_step
    rw [if_pos h]
  · unfold scan_step
    rw [if_neg (not_le.mpr hskip)]
    rcases hcross : detect_ema_cross df i with _ | cross
    · rw [hnone]
      exact ⟨rfl, Or.inl rfl⟩
    · exact ⟨rfl, Or.inr ⟨cross, rfl, rfl⟩⟩
  · unfold scan_step
    rw [if_neg (not_le.mpr hskip), hcross, hdir]
    simp only [hsep, htouch, Bool.and_self, if_true, hfilter, Bool.not_true,
      Bool.false_eq_true, if_false]
    simp [process_entry]

/-- The last element of a list that is strictly sorted by timestamp is the one
with the maximal timestamp. -/
lemma getLast_max_datetime :
    ∀ (l : List Candle), List.Pairwise (fun a b : Candle => a.datetime < b.datetime) l →
      ∀ c, l.getLast? = some c → c ∈ l ∧ ∀ x ∈ l, x.datetime ≤ c.datetime := by
  intro l
  induction l with
  | nil =>
    intro _ c hl
    cases hl
  | cons a t ih =>
    intro hp c hl
    cases t with
    | nil =>
      rw [List.getLast?_singleton] at hl
      cases Option.some.inj hl
      exact ⟨List.mem_singleton_self a, by
        intro x hx
        rw [List.mem_singleton.mp hx]⟩
    | cons b t2 =>
      rw [List.getLast?_cons_cons] at hl
      obtain ⟨hmem, hle⟩ := ih (List.pairwise_cons.mp hp).2 c hl
      refine ⟨List.mem_cons_of_mem a hmem, ?_⟩
      intro x hx
      rcases List.mem_cons.mp hx with rfl | hx2
      · exact le_of_lt ((List.pairwise_cons.mp hp).1 c hmem)
      · exact hle x hx2

/-- C8: the directional-strength filter permits every candidate when no
auxiliary series is supplied or when it has no candle at or before the
candidate timestamp (fail-open); otherwise (with the filter enabled and the
auxiliary series strictly sorted by timestamp) it reads the most recent
auxiliary candle at or before the candidate timestamp and permits a long
candidate exactly when `plus_di − minus_di ≥ threshold` and a short candidate
exactly when `minus_di − plus_di ≥ threshold`. -/
theorem check_di_h4_filter_spec (self : SetupDetector) (t : ℤ) (d : Direction) :
    check_di_h4_filter self none t d = true ∧
    (∀ htf : List Candle, (∀ c ∈ htf, ¬(c.datetime ≤ t)) →
      check_di_h4_filter self (some htf) t d = true) ∧
    (∀ (htf : List Candle) (c : Candle), self.use_di_h4_filter = true →
      List.Pairwise (fun a b : Candle => a.datetime < b.datetime) htf →
      lastAtOrBefore htf t = some c →
      c ∈ htf ∧ c.datetime ≤ t ∧
      (∀ x ∈ htf, x.datetime ≤ t → x.datetime ≤ c.datetime) ∧
      (check_di_h4_filter self (some htf) t d = true ↔
        (d = Direction.LONG → self.di_h4_min_diff ≤ c.plus_di - c.minus_di) ∧
        (d = Direction.SHORT → self.di_h4_min_diff ≤ c.minus_di - c.plus_di))) := by
  refine ⟨rfl, fun htf hnone => ?_, fun htf c henabled hsorted hlast => ?_⟩
  · have hfilter : htf.filter (fun c => decide (c.datetime ≤ t)) = [] :=
      List.filter_eq_nil_iff.mpr (by simpa using hnone)
    unfold check_di_h4_filter lastAtOrBefore
    dsimp only
    rw [hfilter]
    split <;> simp
  · have hpf : List.Pairwise (fun a b : Candle => a.datetime < b.datetime)
        (htf.filter (fun c => decide (c.datetime ≤ t))) :=
      hsorted.sublist (List.filter_sublist htf)
    obtain ⟨hmemf, hmaxf⟩ := getLast_max_datetime _ hpf c hlast
    have hmem := List.mem_filter.mp hmemf
    refine ⟨hmem.1, by simpa using hmem.2, ?_, ?_⟩
    · intro x hx hxt
      exact hmaxf x (List.mem_filter.mpr ⟨hx, by simpa using hxt⟩)
    · unfold check_di_h4_filter
      dsimp only
      rw [henabled, hlast]
      cases d <;> simp

/-- A one-element setup list whose single record is a winning trade. -/
def exampleWinSetup : Setup :=
  { setup_id := 1, entry_date := 0, direction := Direction.LONG, entry_price := 1,
    sl_price := 1, exit_date := 1, exit_price := 2,
    exit_reason := "EMA Cross Reversal", outcome := Outcome.WIN, pips := 10,
    candles_held := 2 }

/-- C9 counterexample: on an empty setup list `get_executive_summary` prints a
notice and returns early, producing no Summary at all (rather than a Summary
with zero totals); and on a one-win list the reported win rate is the
percentage `wins / total × 100 = 100`, not the ratio `wins / total = 1`. -/
theorem get_executive_summary_empty_returns_no_summary :
    get_executive_summary [] = none ∧
    (get_executive_summary [exampleWinSetup]).map Summary.win_rate = some 100 := by
  refine ⟨rfl, ?_⟩
  norm_num [get_executive_summary, outcome_rows, sum_pips, exampleWinSetup, List.filter]

/-- C9 (amended): on an empty setup list the summary routine returns early
with no Summary (and in particular no exception and no division by zero); on a
nonempty list it computes total count, outcome counts, win rate
`wins / total × 100`, total and mean pips, and mean winner/loser pips that are
`0` whenever the respective conditioning set is empty. -/
theorem get_executive_summary_spec (setups : List Setup) (h : setups ≠ []) :
    ∃ s, get_executive_summary setups = some s ∧
      s.total_setups = setups.length ∧
      s.wins = (outcome_rows setups Outcome.WIN).length ∧
      s.losses = (outcome_rows setups Outcome.LOSS).length ∧
      s.be_count = (outcome_rows setups Outcome.BE).length ∧
      s.win_rate = ((outcome_rows setups Outcome.WIN).length : ℚ) / (setups.length : ℚ) * 100 ∧
      s.total_pips = sum_pips setups ∧
      s.avg_pips = sum_pips setups / (setups.length : ℚ) ∧
      ((outcome_rows setups Outcome.WIN).length = 0 → s.avg_winner = 0) ∧
      ((outcome_rows setups Outcome.LOSS).length = 0 → s.avg_loser = 0) ∧
      (0 < (outcome_rows setups Outcome.WIN).length →
        s.avg_winner = sum_pips (outcome_rows setups Outcome.WIN) /
          ((outcome_rows setups Outcome.WIN).length : ℚ)) ∧
      (0 < (outcome_rows setups Outcome.LOSS).length →
        s.avg_loser = sum_pips (outcome_rows setups Outcome.LOSS) /
          ((outcome_rows setups Outcome.LOSS).length : ℚ)) ∧
      get_executive_summary [] = none := by
  have hlen : setups.length ≠ 0 := fun hl => h (List.length_eq_zero.mp hl)
  unfold get_executive_summary
  rw [if_neg hlen]
  refine ⟨_, rfl, rfl, rfl, rfl, rfl, ?_, rfl, rfl, fun hw => ?_, fun hl2 => ?_,
    fun hw => ?_, fun hl2 => ?_, rfl⟩
  · exact if_pos (Nat.pos_of_ne_zero hlen)
  · simp [hw]
  · simp [hl2]
  · exact if_pos hw
  · exact if_pos hl2

/-- Detector configuration of the stop-loss scenario: EURUSD-style scale
(pip factor 10000), 3-pip separation, 20-pip stop, all optional filters off. -/
def cfg1 : SetupDetector :=
  { min_separation_pips := 3, stop_loss_pips := 20, use_di_h4_filter := false,
    di_h4_min_diff := 3, use_be_atr := false, be_atr_multiplier := 1.1,
    pip_factor := 10000, decimals := 4 }

/-- First candle of the stop-loss scenario: fast average below slow. -/
def df1c0 : Candle :=
  { datetime := 0, high := 1.0010, low := 1.0000, close := 1.0005,
    ema20 := 1.0000, ema50 := 1.0005, atr := none, plus_di := 0, minus_di := 0 }

/-- Second candle of the stop-loss scenario: fast average crosses above slow. -/
def df1c1 : Candle :=
  { datetime := 1, high := 1.0015, low := 1.0005, close := 1.0012,
    ema20 := 1.0010, ema50 := 1.0005, atr := none, plus_di := 0, minus_di := 0 }

/-- Five-candle series: bullish cross on candle 1, separation and touch on
candle 2 (entry at the fast average 1.0010), candle 3 breaches the 20-pip
stop. -/
def df1 : List Candle :=
  [ df1c0,
    df1c1,
    { datetime := 2, high := 1.0015, low := 1.0005, close := 1.0010,
      ema20 := 1.0010, ema50 := 1.0005, atr := none, plus_di := 0, minus_di := 0 },
    { datetime := 3, high := 1.0009, low := 0.9980, close := 1.0000,
      ema20 := 1.0008, ema50 := 1.0005, atr := none, plus_di := 0, minus_di := 0 },
    { datetime := 4, high := 1.0010, low := 0.9995, close := 1.0005,
      ema20 := 1.0008, ema50 := 1.0005, atr := none, plus_di := 0, minus_di := 0 } ]

/-- A freshly constructed detector instance: no setups, zeroed counters. -/
def st0 : DetectorState := { setups := [], filtered_by_di_h4 := 0, be_activated := 0 }

/-- C1 evidence: two successive `detect_all_setups` calls on the same detector
instance with identical series, date range and configuration do NOT return
equal lists: `self.setups` is never cleared, so the first call returns the one
detected setup and the second call returns a two-element accumulated list. -/
theorem detect_all_setups_not_idempotent :
    (detect_all_setups cfg1 st0 df1 none 0 10).1.length = 1 ∧
    (detect_all_setups cfg1 (detect_all_setups cfg1 st0 df1 none 0 10).2
      df1 none 0 10).1.length = 2 := by
  constructor <;>
    norm_num [detect_all_setups, filter_range, scan_loop, scan_step, detect_ema_cross,
      check_separation, check_ema_touch, check_di_h4_filter, process_entry, simulate_trade,
      simulate_loop, sl_hit, sl_price_of, sl_distance, sl_result, be_check, be_result,
      cross_exit_check, eod_result, exit_transition, be_increment, roundTo, round_eq,
      cfg1, df1, df1c0, df1c1, st0, abs_of_nonneg]

/-- Detector configuration of the break-even scenario: as `cfg1` but with the
break-even-by-volatility rule enabled at multiplier 1. -/
def cfg2 : SetupDetector :=
  { min_separation_pips := 3, stop_loss_pips := 20, use_di_h4_filter := false,
    di_h4_min_diff := 3, use_be_atr := true, be_atr_multiplier := 1,
    pip_factor := 10000, decimals := 4 }

/-- Five-candle series: entry on candle 2 at 1.0010; candle 3 has ATR 0.0005,
retraces 0.0005 below entry (deep retracement factor 1) and recovers above the
entry price, so the trade closes break-even on candle 3. -/
def df2 : List Candle :=
  [ { datetime := 0, high := 1.0010, low := 1.0000, close := 1.0005,
      ema20 := 1.0000, ema50 := 1.0005, atr := none, plus_di := 0, minus_di := 0 },
    { datetime := 1, high := 1.0015, low := 1.0005, close := 1.0012,
      ema20 := 1.0010, ema50 := 1.0005, atr := none, plus_di := 0, minus_di := 0 },
    { datetime := 2, high := 1.0015, low := 1.0005, close := 1.0010,
      ema20 := 1.0010, ema50 := 1.0005, atr := none, plus_di := 0, minus_di := 0 },
    { datetime := 3, high := 1.0012, low := 1.0005, close := 1.0011,
      ema20 := 1.0008, ema50 := 1.0005, atr := some 0.0005, plus_di := 0, minus_di := 0 },
    { datetime := 4, high := 1.0010, low := 1.0000, close := 1.0005,
      ema20 := 1.0008, ema50 := 1.0005, atr := none, plus_di := 0, minus_di := 0 } ]

/-- C7 evidence: `self.be_activated` is mutable instance state that persists
across detection runs — after one run it is 1, and a second identical run on
the same instance starts from that value and reports 2, so the two runs do
not observe independent counters. -/
theorem be_activated_counter_persists :
    (detect_all_setups cfg2 st0 df2 none 0 10).2.be_activated = 1 ∧
    (detect_all_setups cfg2 (detect_all_setups cfg2 st0 df2 none 0 10).2
      df2 none 0 10).2.be_activated = 2 := by
  constructor <;>
    norm_num [detect_all_setups, filter_range, scan_loop, scan_step, detect_ema_cross,
      check_separation, check_ema_touch, check_di_h4_filter, process_entry, simulate_trade,
      simulate_loop, sl_hit, sl_price_of, sl_distance, sl_result, be_check, be_result,
      cross_exit_check, eod_result, exit_transition, be_increment, roundTo, round_eq,
      cfg2, df2, st0, abs_of_nonneg]

/-- The candle of the priority scenario on which the stop-loss, break-even and
reversal conditions all hold at once (entry 1.0010 on candle 2 of `df3`). -/
def df3c3 : Candle :=
  { datetime := 3, high := 1.0012, low := 0.9980, close := 1.0000,
    ema20 := 1.0000, ema50 := 1.0005, atr := some 0.0005, plus_di := 0, minus_di := 0 }

/-- Four-candle series whose final candle simultaneously satisfies all three
exit conditions for a long trade entered at index 2 with entry price 1.0010. -/
def df3 : List Candle :=
  [ { datetime := 0, high := 1.0010, low := 1.0000, close := 1.0005,
      ema20 := 1.0005, ema50 := 1.0005, atr := none, plus_di := 0, minus_di := 0 },
    { datetime := 1, high := 1.0010, low := 1.0000, close := 1.0005,
      ema20 := 1.0005, ema50 := 1.0005, atr := none, plus_di := 0, minus_di := 0 },
    { datetime := 2, high := 1.0015, low := 1.0005, close := 1.0010,
      ema20 := 1.0010, ema50 := 1.0005, atr := none, plus_di := 0, minus_di := 0 },
    df3c3 ]

/-- Witness for C2: on `df3c3` the stop-loss, break-even and reversal
conditions all hold simultaneously, and the simulator reaching that candle
returns the stop-loss exit. -/
theorem simulate_trade_priority_witness :
    sl_hit Direction.LONG (sl_price_of cfg2 Direction.LONG 1.0010) df3c3 = true ∧
    (be_check cfg2 Direction.LONG 1.0010 df3c3 false (decide ((2 : ℕ) < 3))).2 = true ∧
    (cross_exit_check cfg2 df3 Direction.LONG 1.0010 2 3 df3c3).isSome = true ∧
    simulate_loop cfg2 df3 2 Direction.LONG 1.0010 false 3 1 =
      sl_result cfg2 Direction.LONG 1.0010 2 3 df3c3 := by
  refine ⟨?_, ?_, ?_, ?_⟩
  · norm_num [sl_hit, sl_price_of, sl_distance, cfg2, df3c3]
  · norm_num [be_check, cfg2, df3c3]
  · norm_num [cross_exit_check, detect_ema_cross, df3, df3c3, roundTo, round_eq, cfg2]
  · exact (simulate_trade_priority cfg2 df3 2 Direction.LONG 1.0010 false 3 0 df3c3 rfl).1
      (by norm_num [sl_hit, sl_price_of, sl_distance, cfg2, df3c3])

/-- An armed, separated scan state about to process an exit. -/
def scanArmed : ScanState :=
  { last_cross_direction := some Direction.LONG, separation_achieved := true,
    skip_until_idx := 0 }

/-- The reset scan state with skip index 3. -/
def scanReset3 : ScanState :=
  { last_cross_direction := none, separation_achieved := false, skip_until_idx := 3 }

/-- Witness for C3: a stop-loss exit record at index 3 resets the scan state
to no direction, no separation, skip index 3; and the scan step consumes a
skipped index without any change. -/
theorem exit_state_transition_spec_witness :
    exit_transition scanArmed (sl_result cfg1 Direction.LONG 1.0010 2 3 df1c0) = scanReset3 ∧
    scan_step cfg1 df1 none 2 df1c0 scanReset3 st0 = (scanReset3, st0) := by
  constructor
  · have h := (exit_state_transition_spec cfg1 df1 none).1 scanArmed
      (sl_result cfg1 Direction.LONG 1.0010 2 3 df1c0) (Or.inl rfl)
    simpa [sl_result, scanReset3] using h
  · exact (exit_state_transition_spec cfg1 df1 none).2.2.2.1 2 df1c0 scanReset3 st0
      (by norm_num [scanReset3])

/-- Witness for C4: the cross-detection specification applied to the first two
candles of `df1` certifies the bullish cross at index 1. -/
theorem detect_ema_cross_spec_witness :
    detect_ema_cross df1 1 = some Direction.LONG :=
  (detect_ema_cross_spec df1 1 df1c0 df1c1 (by norm_num) rfl rfl).1.mpr
    ⟨by norm_num [df1c0], by norm_num [df1c1]⟩

/-- Witness for C5: the stop-loss trade of `df1` is recorded as a loss of
`round(−stop_loss_pips, 1)` pips. -/
theorem stop_loss_rule_spec_witness :
    (simulate_trade cfg1 df1 2 Direction.LONG 1.0010).pips =
      roundTo 1 (-cfg1.stop_loss_pips) ∧
    (simulate_trade cfg1 df1 2 Direction.LONG 1.0010).outcome = Outcome.LOSS := by
  obtain ⟨k, candle, _, _, _, _, _, _, _, hpips, hout⟩ :=
    stop_loss_rule_spec cfg1 df1 2 Direction.LONG 1.0010 (by norm_num [cfg1])
      (by norm_num [simulate_trade, simulate_loop, sl_hit, sl_price_of, sl_distance,
        sl_result, be_check, be_result, cross_exit_check, eod_result, detect_ema_cross,
        roundTo, round_eq, cfg1, df1, df1c0, df1c1])
  exact ⟨hpips, hout⟩

/-- Witness for C6: the break-even trade of `df2` closes at exactly the entry
price for 0.0 pips with outcome break-even. -/
theorem be_atr_rule_spec_witness :
    (simulate_trade cfg2 df2 2 Direction.LONG 1.0010).exit_price = 1.0010 ∧
    (simulate_trade cfg2 df2 2 Direction.LONG 1.0010).pips = 0 ∧
    (simulate_trade cfg2 df2 2 Direction.LONG 1.0010).outcome = Outcome.BE := by
  obtain ⟨k, candle, _, _, _, _, _, _, _, hxp, hpips, hout⟩ :=
    (be_atr_rule_spec cfg2 df2 2 Direction.LONG 1.0010).1
      (by norm_num [simulate_trade, simulate_loop, sl_hit, sl_price_of, sl_distance,
        sl_result, be_check, be_result, cross_exit_check, eod_result, detect_ema_cross,
        roundTo, round_eq, cfg2, df2])
  exact ⟨hxp, hpips, hout⟩

/-- Detector configuration with the directional H4 filter enabled at minimum
difference 3. -/
def cfg_di : SetupDetector :=
  { min_separation_pips := 3, stop_loss_pips := 20, use_di_h4_filter := true,
    di_h4_min_diff := 3, use_be_atr := false, be_atr_multiplier := 1.1,
    pip_factor := 10000, decimals := 4 }

/-- An early higher-timeframe candle with bearish directional strength. -/
def h4a : Candle :=
  { datetime := 0, high := 1, low := 1, close := 1, ema20 := 1, ema50 := 1,
    atr := none, plus_di := 10, minus_di := 30 }

/-- The most recent higher-timeframe candle at or before time 12, with
`plus_di − minus_di = 5 ≥ 3`. -/
def h4b : Candle :=
  { datetime := 10, high := 1, low := 1, close := 1, ema20 := 1, ema50 := 1,
    atr := none, plus_di := 25, minus_di := 20 }

/-- Two-candle higher-timeframe series sorted by timestamp. -/
def df_h4 : List Candle := [h4a, h4b]

/-- Witness for C8: with the filter enabled, a long candidate at time 12 is
permitted because the most recent H4 candle (`h4b`) has `plus_di − minus_di =
5 ≥ 3`. -/
theorem check_di_h4_filter_spec_witness :
    check_di_h4_filter cfg_di (some df_h4) 12 Direction.LONG = true := by
  have h := (check_di_h4_filter_spec cfg_di 12 Direction.LONG).2.2 df_h4 h4b rfl
    (by norm_num [df_h4, h4a, h4b, List.pairwise_cons])
    (by norm_num [lastAtOrBefore, df_h4, h4a, h4b, List.filter])
  exact h.2.2.2.mpr ⟨fun _ => by norm_num [h4b, cfg_di], fun hS => Direction.noConfusion hS⟩

/-- Witness for C9: the summary of the one-win list exists and counts one
setup. -/
theorem get_executive_summary_spec_witness :
    ∃ s, get_executive_summary [exampleWinSetup] = some s ∧ s.total_setups = 1 := by
  obtain ⟨s, hs, htot, _⟩ := get_executive_summary_spec [exampleWinSetup] (by simp)
  exact ⟨s, hs, by rw [htot]; rfl⟩

/-- Witness for C10: an end-of-data close from entry index 4 records
`len − 4` candles, the stop-loss exit of `df1` records `exit_idx − 2`, and a
stop-loss on the final candle records one candle fewer than an end-of-data
close there. -/
theorem candles_held_spec_witness :
    (simulate_trade cfg1 df1 4 Direction.LONG 0.5).candles_held = df1.length - 4 ∧
    (simulate_trade cfg1 df1 2 Direction.LONG 1.0010).candles_held =
      (simulate_trade cfg1 df1 2 Direction.LONG 1.0010).exit_idx - 2 ∧
    (simulate_trade cfg1 df1 4 Direction.LONG 5).candles_held + 1 = df1.length - 4 := by
  refine ⟨?_, ?_, ?_⟩
  · exact (candles_held_spec cfg1 df1 4 Direction.LONG 0.5).1
      (by norm_num [simulate_trade, simulate_loop, sl_hit, sl_price_of, sl_distance,
        sl_result, be_check, be_result, cross_exit_check, eod_result, detect_ema_cross,
        roundTo, round_eq, cfg1, df1, df1c0, df1c1])
  · exact (candles_held_spec cfg1 df1 2 Direction.LONG 1.0010).2.1
      (by
        norm_num [simulate_trade, simulate_loop, sl_hit, sl_price_of, sl_distance,
          sl_result, be_check, be_result, cross_exit_check, eod_result, detect_ema_cross,
          roundTo, round_eq, cfg1, df1, df1c0, df1c1]
        decide)
  · exact (candles_held_spec cfg1 df1 4 Direction.LONG 5).2.2
      (by
        norm_num [simulate_trade, simulate_loop, sl_hit, sl_price_of, sl_distance,
          sl_result, be_check, be_result, cross_exit_check, eod_result, detect_ema_cross,
          roundTo, round_eq, cfg1, df1, df1c0, df1c1]
        decide)
      (by norm_num [simulate_trade, simulate_loop, sl_hit, sl_price_of, sl_distance,
        sl_result, be_check, be_result, cross_exit_check, eod_result, detect_ema_cross,
        roundTo, round_eq, cfg1, df1, df1c0, df1c1])
      (by norm_num [df1])
